import Mathlib

/-!
Verification of the QR-Management repository: a shallow embedding of
`QR_Generator.py` (serial-code generation against an Excel ledger) and
`Label_layout_printer.py` (grid layout of label images on an A4 page),
together with theorems settling the specification's claims.

Serial codes are words over the uppercase alphabet, modelled as `List Char`.
Python `int` values are modelled as `Int` (`Nat` where the source can only
produce non-negative values), and the floating-point millimetre arithmetic of
the layout module is modelled exactly over `ℚ`.
-/

namespace QRGen

/-- The serial alphabet, `string.ascii_uppercase`. -/
def charset : List Char := "ABCDEFGHIJKLMNOPQRSTUVWXYZ".toList

/-- A serial code: a word over `charset`. -/
abbrev Code := List Char

/-- The stream `(''.join(p) for p in itertools.product(charset, repeat=length))`:
all words of the given length over `charset`, first character varying slowest,
exactly the order `itertools.product` yields. -/
def all_serials : Nat → List Code
  | 0 => [[]]
  | n + 1 => charset.flatMap (fun c => (all_serials n).map (fun w => c :: w))

/-- Python's lexicographic string comparison `a < b`, on codes. -/
def lexLt : Code → Code → Bool
  | [], [] => false
  | [], _ :: _ => true
  | _ :: _, [] => false
  | a :: as, b :: bs => if a < b then true else if b < a then false else lexLt as bs

/-- The yield loop of `serial_generator` after the skipping phase has found
`start`: each serial is yielded, the `generated` counter is incremented, and
only then is `generated >= count` tested (when `count` is not `None`). -/
def serialGenAux (count : Option Int) : Nat → List Code → List Code
  | _, [] => []
  | generated, s :: rest =>
    s ::
      (match count with
       | some c =>
         if (generated : Int) + 1 ≥ c then []
         else serialGenAux count (generated + 1) rest
       | none => serialGenAux count (generated + 1) rest)

/-- `serial_generator(start, count)`: walk `all_serials` of `start`'s length,
skip until `start` is reached (dropping everything strictly before it; if
`start` never occurs nothing is yielded), then yield with the post-yield
count check. -/
def serial_generator (start : Code) (count : Option Int) : List Code :=
  serialGenAux count 0
    ((all_serials start.length).dropWhile (fun s => decide (s ≠ start)))

/-- `serial_generator_open_ended(start)`: same skipping phase, then yield
every remaining serial of the fixed-length stream. -/
def serial_generator_open_ended (start : Code) : List Code :=
  (all_serials start.length).dropWhile (fun s => decide (s ≠ start))

/-- Mode 1 loop body of `main`: for each generated serial, first `break` if
`serial > end`, then skip it if it is in the existing ledger set, otherwise
accept it (generate the QR image and append to `new_data`). -/
def mode1Loop (existing : List Code) (endCode : Code) : List Code → List Code
  | [] => []
  | s :: rest =>
    if lexLt endCode s then []
    else if s ∈ existing then mode1Loop existing endCode rest
    else s :: mode1Loop existing endCode rest

/-- Mode 1 of `main`: run the open generator from `start` through the
range/collision loop. -/
def mode1 (existing : List Code) (start endCode : Code) : List Code :=
  mode1Loop existing endCode (serial_generator start none)

/-- Outcome of the mode 2 `while` loop of `main`: either the loop exits
normally (`finished`, with `aborted = true` when the `attempts >= max_attempts`
branch printed its error and broke), or `next(generator)` raises
`StopIteration` because the fixed-length stream is exhausted. -/
inductive Mode2Result where
  | finished (accepted : List Code) (attempts : Nat) (aborted : Bool)
  | stopIteration (accepted : List Code) (attempts : Nat)
deriving DecidableEq

/-- Mode 2 loop of `main`, transcribed: while `len(new_data) < count`, pull
the next candidate (StopIteration if none), increment `attempts`, `continue`
on a ledger collision, otherwise accept the serial and only then test
`attempts >= max_attempts`, breaking with the error report if it holds. -/
def mode2Loop (existing : List Code) (count : Int) (maxAttempts : Nat)
    (cands accepted : List Code) (attempts : Nat) : Mode2Result :=
  if (accepted.length : Int) < count then
    match cands with
    | [] => .stopIteration accepted attempts
    | s :: rest =>
      if s ∈ existing then
        mode2Loop existing count maxAttempts rest accepted (attempts + 1)
      else if attempts + 1 ≥ maxAttempts then
        .finished (accepted ++ [s]) (attempts + 1) true
      else
        mode2Loop existing count maxAttempts rest (accepted ++ [s]) (attempts + 1)
  else .finished accepted attempts false

/-- Mode 2 of `main`: the loop run on `serial_generator_open_ended(start)`
with `max_attempts = 10000`, starting from empty `new_data` and `attempts = 0`. -/
def mode2 (existing : List Code) (start : Code) (count : Int) : Mode2Result :=
  mode2Loop existing count 10000 (serial_generator_open_ended start) [] 0

/-- Abstract state of the Excel ledger file read by `load_existing_serials`:
the file may be missing (`os.path.exists` false), present but such that
`openpyxl.load_workbook` raises, or a readable workbook given as an
association list from sheet name to that sheet's serial column (the values of
column A from row 2 on). -/
inductive LedgerStore where
  | missing
  | unreadable
  | workbook (sheets : List (String × List String))

/-- `load_existing_serials()`: a missing file gives the empty set; a workbook
whose sheet names do not include "Generated" leaves `serials` empty (the
`if sheet:` guard); otherwise the serial column of the "Generated" sheet is
collected. An exception from `load_workbook` propagates to the caller
(`Except.error`). -/
def load_existing_serials : LedgerStore → Except String (List String)
  | .missing => .ok []
  | .unreadable => .error "load_workbook raised"
  | .workbook sheets =>
    match sheets.lookup "Generated" with
    | some serials => .ok serials
    | none => .ok []

/-- Inputs of `create_label_pdf` that the layout arithmetic depends on.
Millimetre quantities are `ℚ` (the Python floats, modelled exactly);
`lbls_x`/`lbls_y` are the Python ints. -/
structure LabelParams where
  lbl_width_mm : ℚ
  lbl_height_mm : ℚ
  lbls_x : ℤ
  lbls_y : ℤ
  mgn_left_mm : ℚ
  mgn_top_mm : ℚ
  spc_x_mm : ℚ
  spc_y_mm : ℚ
  lbl_padding_mm : ℚ
deriving DecidableEq

/-- Derived right margin of `create_label_pdf`:
`210 - mgn_left_mm - lbls_x * lbl_width_mm - (lbls_x - 1) * spc_x_mm`. -/
def mgn_right_mm (p : LabelParams) : ℚ :=
  210 - p.mgn_left_mm - p.lbls_x * p.lbl_width_mm - (p.lbls_x - 1) * p.spc_x_mm

/-- Derived bottom margin of `create_label_pdf`:
`297 - mgn_top_mm - lbls_y * lbl_height_mm - (lbls_y - 1) * spc_y_mm - 0.1`. -/
def mgn_bottom_mm (p : LabelParams) : ℚ :=
  297 - p.mgn_top_mm - p.lbls_y * p.lbl_height_mm - (p.lbls_y - 1) * p.spc_y_mm
    - 1 / 10

/-- Millimetres to points: `x * 2.83465`. -/
def mmToPt (x : ℚ) : ℚ := x * (283465 / 100000)

/-- `total_width` computed by `create_label_pdf` in points:
`margin_left + lbls_x * label_width + (lbls_x - 1) * spacing_x + margin_right`,
where `margin_right` is the derived margin converted to points. -/
def total_width (p : LabelParams) : ℚ :=
  mmToPt p.mgn_left_mm + p.lbls_x * mmToPt p.lbl_width_mm
    + (p.lbls_x - 1) * mmToPt p.spc_x_mm + mmToPt (mgn_right_mm p)

/-- `total_height` computed by `create_label_pdf` in points, with the derived
bottom margin. -/
def total_height (p : LabelParams) : ℚ :=
  mmToPt p.mgn_top_mm + p.lbls_y * mmToPt p.lbl_height_mm
    + (p.lbls_y - 1) * mmToPt p.spc_y_mm + mmToPt (mgn_bottom_mm p)

/-- The validation step of `create_label_pdf`: raise `ValueError` when
`total_width >= 595.28 or total_height >= 841.89`, otherwise continue.
The f-string formatting of the computed dimensions into the message is
elided; the message text is fixed here. -/
def layoutCheck (p : LabelParams) : Except String Unit :=
  if total_width p ≥ 59528 / 100 ∨ total_height p ≥ 84189 / 100 then
    .error "Layout exceeds A4 dimensions (210x297 mm)"
  else .ok ()

/-- Modelled from the spec's wording for the overflow claim: the horizontal
"total grid footprint (margins + cells + inter-cell spacing)" in millimetres,
using the input left margin. -/
def specFootprintXMm (p : LabelParams) : ℚ :=
  p.mgn_left_mm + p.lbls_x * p.lbl_width_mm + (p.lbls_x - 1) * p.spc_x_mm

/-- Modelled from the spec's wording for the overflow claim: the vertical
"total grid footprint" in millimetres, using the input top margin. -/
def specFootprintYMm (p : LabelParams) : ℚ :=
  p.mgn_top_mm + p.lbls_y * p.lbl_height_mm + (p.lbls_y - 1) * p.spc_y_mm

/-- The parameters of the `__main__` block of `Label_layout_printer.py`. -/
def defaultParams : LabelParams :=
  { lbl_width_mm := 20
    lbl_height_mm := 15
    lbls_x := 8
    lbls_y := 15
    mgn_left_mm := 29 / 2
    mgn_top_mm := 16
    spc_x_mm := 3
    spc_y_mm := 3
    lbl_padding_mm := 1 }

/-- A configuration whose grid footprint (100 labels of 100 mm each per row)
is far wider than the 210 mm page. -/
def overflowParams : LabelParams :=
  { defaultParams with lbls_x := 100, lbl_width_mm := 100 }

/-- Result of the per-cell image fitting of `create_label_pdf`. -/
structure ImageFit where
  rotate : Bool
  new_width : ℚ
  new_height : ℚ
  x_offset : ℚ
  y_offset : ℚ
deriving DecidableEq

/-- Per-cell image processing of `create_label_pdf`: compute the image and
label aspect ratios, rotate 90° (swapping the image dimensions,
`expand=True`) when `abs(img_aspect - label_aspect) >
abs((1 / img_aspect) - label_aspect)`, then scale to the padded cell and
center. -/
def fitImage (img_width img_height label_width label_height label_padding : ℚ) :
    ImageFit :=
  let img_aspect := img_width / img_height
  let label_aspect := label_width / label_height
  let rot := decide (|img_aspect - label_aspect| > |1 / img_aspect - label_aspect|)
  let w := if rot then img_height else img_width
  let h := if rot then img_width else img_height
  let padded_width := label_width - 2 * label_padding
  let padded_height := label_height - 2 * label_padding
  let scale := min (padded_width / w) (padded_height / h)
  { rotate := rot
    new_width := w * scale
    new_height := h * scale
    x_offset := (label_width - w * scale) / 2
    y_offset := (label_height - h * scale) / 2 }

/-! ### Supporting lemmas -/

/-- Prepending the same character preserves the lexicographic comparison. -/
theorem lexLt_cons_same (c : Char) (a b : Code) :
    lexLt (c :: a) (c :: b) = lexLt a b := by
  simp [lexLt]

/-- A strictly smaller head character decides the lexicographic comparison. -/
theorem lexLt_cons_lt {c d : Char} (h : c < d) (a b : Code) :
    lexLt (c :: a) (d :: b) = true := by
  simp [lexLt, h]

/-- Every word of the right length over the alphabet occurs in the product
stream. -/
theorem mem_all_serials {w : Code} {n : Nat}
    (hlen : w.length = n) (hchars : ∀ c ∈ w, c ∈ charset) :
    w ∈ all_serials n := by
  induction n generalizing w with
  | zero =>
    rw [List.length_eq_zero] at hlen
    simp [all_serials, hlen]
  | succ n ih =>
    match w with
    | c :: v =>
      rw [all_serials]
      rw [List.mem_flatMap]
      refine ⟨c, hchars c (by simp), ?_⟩
      rw [List.mem_map]
      exact ⟨v, ih (by simpa using hlen) (fun d hd => hchars d (by simp [hd])), rfl⟩

/-- The product stream is strictly increasing in lexicographic order. -/
theorem pairwise_all_serials (n : Nat) :
    (all_serials n).Pairwise (fun a b => lexLt a b = true) := by
  induction n with
  | zero => simp [all_serials]
  | succ n ih =>
    rw [all_serials]
    rw [show charset.flatMap (fun c => (all_serials n).map (fun w => c :: w)) =
        (charset.map (fun c => (all_serials n).map (fun w => c :: w))).flatten from rfl]
    rw [List.pairwise_flatten]
    constructor
    · intro l hl
      rw [List.mem_map] at hl
      obtain ⟨c, _, rfl⟩ := hl
      rw [List.pairwise_map]
      exact ih.imp (fun {a b} h => by rw [lexLt_cons_same]; exact h)
    · rw [List.pairwise_map]
      have hcs : charset.Pairwise (fun a b => a < b) := by decide
      refine hcs.imp (fun {c d} h => ?_)
      intro x hx y hy
      rw [List.mem_map] at hx hy
      obtain ⟨a, _, rfl⟩ := hx
      obtain ⟨b, _, rfl⟩ := hy
      exact lexLt_cons_lt h a b

/-- Dropping everything before a member of the list reaches that member. -/
theorem dropWhile_eq_cons_of_mem {α : Type} [DecidableEq α] {a : α} :
    ∀ {l : List α}, a ∈ l →
    ∃ t, l.dropWhile (fun x => decide (x ≠ a)) = a :: t := by
  intro l h
  induction l with
  | nil => cases h
  | cons b rest ih =>
    by_cases hba : b = a
    · subst hba
      exact ⟨rest, by simp [List.dropWhile_cons]⟩
    · rw [List.mem_cons] at h
      obtain ⟨t, ht⟩ := ih (h.resolve_left (fun he => hba he.symm))
      refine ⟨t, ?_⟩
      rw [List.dropWhile_cons, if_pos (by simp [hba]), ht]

/-- The counted yield loop emits a sublist of its input stream. -/
theorem serialGenAux_sublist (count : Option Int) :
    ∀ (g : Nat) (l : List Code), (serialGenAux count g l).Sublist l := by
  intro g l
  induction l generalizing g with
  | nil => simp [serialGenAux]
  | cons s rest ih =>
    cases count with
    | none =>
      rw [show serialGenAux none g (s :: rest)
          = s :: serialGenAux none (g + 1) rest from rfl]
      exact (ih (g + 1)).cons₂ s
    | some c =>
      rw [show serialGenAux (some c) g (s :: rest)
          = s :: (if (g : Int) + 1 ≥ c then []
                  else serialGenAux (some c) (g + 1) rest) from rfl]
      by_cases h : (g : Int) + 1 ≥ c
      · rw [if_pos h]
        exact (List.nil_sublist rest).cons₂ s
      · rw [if_neg h]
        exact (ih (g + 1)).cons₂ s

/-- The counted yield loop always emits the head of a nonempty stream first. -/
theorem serialGenAux_cons (count : Option Int) (g : Nat) (s : Code)
    (rest : List Code) :
    ∃ t, serialGenAux count g (s :: rest) = s :: t :=
  ⟨_, rfl⟩

/-- Nothing the mode 1 loop accepts lies beyond the end bound. -/
theorem mode1Loop_le_end (existing : List Code) (e : Code) :
    ∀ (l : List Code) (s : Code), s ∈ mode1Loop existing e l → lexLt e s = false := by
  intro l
  induction l with
  | nil => intro s h; simp [mode1Loop] at h
  | cons c rest ih =>
    intro s h
    rw [mode1Loop] at h
    by_cases h1 : lexLt e c
    · rw [if_pos h1] at h
      cases h
    · rw [if_neg h1] at h
      by_cases h2 : c ∈ existing
      · rw [if_pos h2] at h
        exact ih s h
      · rw [if_neg h2] at h
        rw [List.mem_cons] at h
        cases h with
        | inl heq =>
          subst heq
          exact Bool.not_eq_true _ |>.mp h1
        | inr hmem => exact ih s hmem

/-- A colliding candidate is consumed by the mode 2 loop without changing the
accepted list, costing one attempt. -/
theorem mode2Loop_skip (existing : List Code) (count : Int) (maxA : Nat)
    (s : Code) (rest accepted : List Code) (attempts : Nat)
    (hmem : s ∈ existing) (hcnt : (accepted.length : Int) < count) :
    mode2Loop existing count maxA (s :: rest) accepted attempts =
      mode2Loop existing count maxA rest accepted (attempts + 1) := by
  rw [mode2Loop, if_pos hcnt]
  simp only [if_pos hmem]

/-- When every remaining candidate collides, the mode 2 loop consumes the
whole stream and ends in `StopIteration`: the `attempts >= max_attempts`
branch is unreachable because `continue` skips it. -/
theorem mode2Loop_all_collide (existing : List Code) (count : Int) (maxA : Nat) :
    ∀ (cands : List Code) (accepted : List Code) (attempts : Nat),
      (∀ c ∈ cands, c ∈ existing) → (accepted.length : Int) < count →
      mode2Loop existing count maxA cands accepted attempts =
        .stopIteration accepted (attempts + cands.length) := by
  intro cands
  induction cands with
  | nil =>
    intro acc att _ hcnt
    rw [mode2Loop, if_pos hcnt]
    simp
  | cons c rest ih =>
    intro acc att hall hcnt
    rw [mode2Loop_skip existing count maxA c rest acc att (hall c (by simp)) hcnt]
    rw [ih acc (att + 1) (fun d hd => hall d (by simp [hd])) hcnt]
    simp only [List.length_cons]
    congr 1
    omega

/-- The validated `total_width` is the constant `595.2765` points: the derived
right margin cancels every input term. -/
theorem total_width_const (p : LabelParams) : total_width p = 1190553 / 2000 := by
  unfold total_width mmToPt mgn_right_mm
  ring

/-- The validated `total_height` is the constant `841.607585` points: the
derived bottom margin cancels every input term, leaving `296.9 * 2.83465`. -/
theorem total_height_const (p : LabelParams) :
    total_height p = 168321517 / 200000 := by
  unfold total_height mmToPt mgn_bottom_mm
  ring

/-- The A4 validation of `create_label_pdf` succeeds on every input. -/
theorem layoutCheck_ok (p : LabelParams) : layoutCheck p = .ok () := by
  rw [layoutCheck, if_neg]
  push_neg
  constructor
  · rw [total_width_const]; norm_num
  · rw [total_height_const]; norm_num

/-! ### Claims -/

/-- C1: the claim says the open-ended allocator aborts with a reported error
after `max_attempts = 10000` candidate checks when every candidate collides,
returning the empty accepted list. The code checks the ceiling only after a
successful acceptance, so an all-colliding run never reports: it exhausts the
generator and dies with `StopIteration`. Generally, an all-colliding candidate
stream yields `stopIteration` with one attempt per candidate and no abort
report; concretely, with start `"A"` and a ledger holding all 26 one-letter
serials, `mode2` ends in `StopIteration` after 26 checks, not in a reported
error after 10000. -/
theorem mode2_attempt_ceiling_unreachable :
    (∀ (existing : List Code) (count : Int) (maxA : Nat)
        (cands accepted : List Code) (attempts : Nat),
      (∀ c ∈ cands, c ∈ existing) → (accepted.length : Int) < count →
      mode2Loop existing count maxA cands accepted attempts =
        .stopIteration accepted (attempts + cands.length)) ∧
    mode2 (all_serials 1) ['A'] 1 = .stopIteration [] 26 :=
  ⟨mode2Loop_all_collide, by decide⟩

/-- Witness for C1: the all-collision lemma applied to the one-candidate,
one-element ledger instance. -/
theorem mode2_attempt_ceiling_unreachable_witness :
    ((∀ c ∈ ([['A']] : List Code), c ∈ ([['A']] : List Code)) ∧
      ((([] : List Code).length : Int) < 1)) ∧
    mode2Loop [['A']] 1 10 [['A']] [] 0 = .stopIteration [] 1 :=
  ⟨⟨by decide, by decide⟩,
    mode2_attempt_ceiling_unreachable.1 [['A']] 1 10 [['A']] [] 0
      (by decide) (by decide)⟩

/-- C2: the claim says `create_label_pdf` aborts with an error whenever the
grid footprint on either axis meets or exceeds the A4 page. Because the
compared totals include the derived right/bottom margins, they are constants
(`595.2765 < 595.28` points and `841.607585 < 841.89` points), so the
validation succeeds on every input; in particular it succeeds on a
configuration whose horizontal footprint is over 10000 mm. -/
theorem layout_overflow_validation_vacuous :
    (∀ p : LabelParams, layoutCheck p = .ok ()) ∧
    specFootprintXMm overflowParams ≥ 210 ∧
    layoutCheck overflowParams = .ok () :=
  ⟨layoutCheck_ok,
   by norm_num [specFootprintXMm, overflowParams, defaultParams],
   layoutCheck_ok _⟩

/-- C3 counterexample: a workbook that exists but has no "Generated" sheet is
read as the empty serial set, not surfaced as an error as the claim states. -/
theorem ledger_missing_sheet_silently_empty :
    load_existing_serials (.workbook [("Sheet1", ["AAA"])]) = .ok [] :=
  rfl

/-- C3 amended: a missing store reads as the empty set; a readable workbook
without a "Generated" sheet also silently reads as the empty set; only a
store on which `load_workbook` raises surfaces as an error to the caller. -/
theorem ledger_read_error_policy (sheets : List (String × List String))
    (hno : sheets.lookup "Generated" = none) :
    load_existing_serials .missing = .ok [] ∧
    load_existing_serials (.workbook sheets) = .ok [] ∧
    load_existing_serials .unreadable = .error "load_workbook raised" := by
  refine ⟨rfl, ?_, rfl⟩
  simp only [load_existing_serials, hno]

/-- Witness for the amended C3: a concrete workbook whose only sheet is not
"Generated". -/
theorem ledger_read_error_policy_witness :
    ([("Other", ["AAA"])] : List (String × List String)).lookup "Generated"
      = none ∧
    (load_existing_serials .missing = .ok [] ∧
      load_existing_serials (.workbook [("Other", ["AAA"])]) = .ok [] ∧
      load_existing_serials .unreadable = .error "load_workbook raised") :=
  ⟨by decide, ledger_read_error_policy [("Other", ["AAA"])] (by decide)⟩

/-- C4 counterexample: on the repository's own `__main__` parameters the
derived bottom margin is `13.9`, not the claimed remainder
`297 - 16 - 15 * 15 - 14 * 3 = 14`: the code subtracts an extra `0.1` mm. -/
theorem derived_bottom_margin_off_by_tenth :
    mgn_bottom_mm defaultParams ≠
      297 - defaultParams.mgn_top_mm
        - defaultParams.lbls_y * defaultParams.lbl_height_mm
        - (defaultParams.lbls_y - 1) * defaultParams.spc_y_mm := by
  norm_num [mgn_bottom_mm, defaultParams]

/-- C4 amended: the derived right margin is exactly the horizontal remainder
(the x-axis footprint plus the right margin is 210 mm), while the derived
bottom margin is the vertical remainder minus an extra 0.1 mm (the y-axis
footprint plus the bottom margin is 296.9 mm, not 297). -/
theorem derived_margins_remainder (p : LabelParams) :
    p.mgn_left_mm + p.lbls_x * p.lbl_width_mm + (p.lbls_x - 1) * p.spc_x_mm
        + mgn_right_mm p = 210 ∧
    p.mgn_top_mm + p.lbls_y * p.lbl_height_mm + (p.lbls_y - 1) * p.spc_y_mm
        + mgn_bottom_mm p = 297 - 1 / 10 := by
  constructor <;>
    (simp only [mgn_right_mm, mgn_bottom_mm]; ring)

/-- C5: in range mode the end bound is a hard stop checked on every candidate:
no accepted code exceeds `end`; the loop breaks at the first candidate past
`end` before even consulting the ledger; and from `"AAA"` with end `"AAZ"`
over an empty ledger exactly the 26 codes `AAA`..`AAZ` are produced. -/
theorem range_mode_end_is_hard_stop :
    (∀ (existing : List Code) (e : Code) (l : List Code) (s : Code),
        s ∈ mode1Loop existing e l → lexLt e s = false) ∧
    (∀ (existing : List Code) (e s : Code) (rest : List Code),
        lexLt e s = true → mode1Loop existing e (s :: rest) = []) ∧
    mode1 [] ['A', 'A', 'A'] ['A', 'A', 'Z'] =
      charset.map (fun c => ['A', 'A', c]) :=
  ⟨mode1Loop_le_end,
   fun existing e s rest h => by rw [mode1Loop, if_pos h],
   by decide⟩

/-- Witness for C5: the membership bound and the break-before-ledger-check
behaviour at concrete inputs (the breaking candidate is itself in the ledger). -/
theorem range_mode_end_is_hard_stop_witness :
    ((['A'] ∈ mode1Loop [] ['B'] [['A']]) ∧ lexLt ['B'] ['A'] = false) ∧
    (lexLt ['B'] ['C'] = true ∧ mode1Loop [['C']] ['B'] [['C']] = []) :=
  ⟨⟨by decide, range_mode_end_is_hard_stop.1 [] ['B'] [['A']] ['A'] (by decide)⟩,
   ⟨by decide, range_mode_end_is_hard_stop.2.1 [['C']] ['B'] ['C'] [] (by decide)⟩⟩

/-- C6: every candidate is checked against the ledger loaded at the start of
the run; a colliding candidate is skipped, leaving the accepted list unchanged
while still costing an attempt; and with ledger `{"AAC"}`, requesting 3 codes
from `"AAA"` accepts exactly `["AAA", "AAB", "AAD"]` (in 4 attempts, with no
abort). -/
theorem collision_skip_policy :
    (∀ (existing : List Code) (count : Int) (maxA : Nat) (s : Code)
        (rest accepted : List Code) (attempts : Nat),
        s ∈ existing → (accepted.length : Int) < count →
        mode2Loop existing count maxA (s :: rest) accepted attempts =
          mode2Loop existing count maxA rest accepted (attempts + 1)) ∧
    mode2 [['A', 'A', 'C']] ['A', 'A', 'A'] 3 =
      .finished [['A', 'A', 'A'], ['A', 'A', 'B'], ['A', 'A', 'D']] 4 false :=
  ⟨mode2Loop_skip, by decide⟩

/-- Witness for C6: the skip equation applied at a concrete colliding head. -/
theorem collision_skip_policy_witness :
    ((['B'] ∈ ([['B']] : List Code)) ∧ ((([] : List Code).length : Int) < 2)) ∧
    mode2Loop [['B']] 2 10 [['B'], ['C']] [] 0 =
      mode2Loop [['B']] 2 10 [['C']] [] 1 :=
  ⟨⟨by decide, by decide⟩,
    collision_skip_policy.1 [['B']] 2 10 ['B'] [['C']] [] 0
      (by decide) (by decide)⟩

/-- C7: for every start word over the uppercase alphabet, both
`serial_generator` (any count) and `serial_generator_open_ended` emit a
strictly increasing lexicographic sequence whose first element is `start`. -/
theorem generator_strictly_increasing (start : Code) (count : Option Int)
    (hchars : ∀ c ∈ start, c ∈ charset) :
    ((serial_generator start count).Pairwise (fun a b => lexLt a b = true) ∧
      (serial_generator start count).head? = some start) ∧
    (serial_generator_open_ended start).Pairwise (fun a b => lexLt a b = true) ∧
    (serial_generator_open_ended start).head? = some start := by
  obtain ⟨t, ht⟩ := dropWhile_eq_cons_of_mem (mem_all_serials rfl hchars)
  have hsubOpen : (serial_generator_open_ended start).Sublist
      (all_serials start.length) := List.dropWhile_sublist _
  have hpwOpen : (serial_generator_open_ended start).Pairwise
      (fun a b => lexLt a b = true) :=
    List.Pairwise.sublist hsubOpen (pairwise_all_serials start.length)
  have hgenSub : (serial_generator start count).Sublist
      (serial_generator_open_ended start) :=
    serialGenAux_sublist count 0 _
  refine ⟨⟨List.Pairwise.sublist hgenSub hpwOpen, ?_⟩, hpwOpen, ?_⟩
  · rw [serial_generator, ht]
    obtain ⟨u, hu⟩ := serialGenAux_cons count 0 start t
    rw [hu, List.head?_cons]
  · rw [serial_generator_open_ended, ht, List.head?_cons]

/-- Witness for C7: the ordering and head facts at the concrete start `"QR"`. -/
theorem generator_strictly_increasing_witness :
    (∀ c ∈ (['Q', 'R'] : Code), c ∈ charset) ∧
    (((serial_generator ['Q', 'R'] none).Pairwise
        (fun a b => lexLt a b = true) ∧
      (serial_generator ['Q', 'R'] none).head? = some ['Q', 'R']) ∧
     (serial_generator_open_ended ['Q', 'R']).Pairwise
        (fun a b => lexLt a b = true) ∧
     (serial_generator_open_ended ['Q', 'R']).head? = some ['Q', 'R']) :=
  ⟨by decide, generator_strictly_increasing ['Q', 'R'] none (by decide)⟩

/-- C8: bounded mode stops after exactly `count` yields:
`serial_generator("AAA", count=5)` produces exactly
`["AAA", "AAB", "AAC", "AAD", "AAE"]`. -/
theorem serial_generator_bounded_five :
    serial_generator ['A', 'A', 'A'] (some 5) =
      [['A', 'A', 'A'], ['A', 'A', 'B'], ['A', 'A', 'C'],
       ['A', 'A', 'D'], ['A', 'A', 'E']] := by
  decide

/-- C9: the layout engine rotates an image 90° exactly when
`|imgAspect - cellAspect| > |1/imgAspect - cellAspect|`, where the image
aspect is width over height and its reciprocal is height over width. -/
theorem rotation_heuristic_iff
    (img_width img_height label_width label_height label_padding : ℚ) :
    ((fitImage img_width img_height label_width label_height
        label_padding).rotate = true ↔
      |img_width / img_height - label_width / label_height| >
        |img_height / img_width - label_width / label_height|) := by
  simp only [fitImage, decide_eq_true_eq]
  rw [one_div_div]

/-- C10: with a valid start and a non-`None` count that is zero or negative,
`serial_generator` still yields exactly the start itself, because the
`generated >= count` test runs only after a yield. -/
theorem serial_generator_nonpos_count (start : Code) (count : Int)
    (hchars : ∀ c ∈ start, c ∈ charset) (hcnt : count ≤ 0) :
    serial_generator start (some count) = [start] := by
  obtain ⟨t, ht⟩ := dropWhile_eq_cons_of_mem (mem_all_serials rfl hchars)
  rw [serial_generator, ht]
  rw [show serialGenAux (some count) 0 (start :: t)
      = start :: (if ((0 : Nat) : Int) + 1 ≥ count then []
                  else serialGenAux (some count) 1 t) from rfl]
  rw [if_pos (by omega)]

/-- Witness for C10: the start `"A"` with the negative count `-3` yields
exactly `["A"]`. -/
theorem serial_generator_nonpos_count_witness :
    ((∀ c ∈ (['A'] : Code), c ∈ charset) ∧ (-3 : Int) ≤ 0) ∧
    serial_generator ['A'] (some (-3)) = [['A']] :=
  ⟨⟨by decide, by decide⟩,
    serial_generator_nonpos_count ['A'] (-3) (by decide) (by decide)⟩

end QRGen
